import Mathlib

/-!
Shallow embedding of the task-uploads backend service (src/app.py).

The four Flask routes are modelled as pure Lean functions. External
effects (S3 presigned-URL signing, S3 bucket listing, S3 object delete,
MySQL connect/insert) are supplied as oracle arguments, and every
backend invocation an execution performs is returned as an explicit
trace of `BackendCall` events, so that claims about which backend calls
happen (and how often, and in which outcome) can be stated directly.
Machine-level details that the claims do not touch (Flask JSON parsing
errors, logging) are outside the model; each route takes an
already-parsed JSON body.
-/

/-- The bucket name used in every S3 call. Models
`os.environ.get("S3_BUCKET", "zinivd-task-uploads")` at its default value;
the claims are independent of the configured name. -/
def BUCKET_NAME : String := "zinivd-task-uploads"

/-- `ALLOWED_EXTENSIONS` from app.py (a Python set; iteration order is
irrelevant to `any`). -/
def ALLOWED_EXTENSIONS : List String :=
  [".jpg", ".jpeg", ".png", ".gif", ".mp4", ".mov", ".avi", ".webm"]

/-- Python `str.lower`, modelled characterwise with `Char.toLower` (ASCII
case folding). The core `String.toLower` is not kernel-computable (its
`String.map` is defined by a non-total auxiliary), so the embedding maps
over the character list directly; on the ASCII data this service compares
the two agree. -/
def pyLower (s : String) : String := ⟨s.data.map Char.toLower⟩

/-- Python `str.endswith`: the characters of `suffix` form a suffix of the
characters of `s`. -/
def pyEndsWith (s suffix : String) : Bool :=
  suffix.data.isSuffixOf s.data

/-- `allowed_file` from app.py:
`any(filename.lower().endswith(ext) for ext in ALLOWED_EXTENSIONS)`. -/
def allowed_file (filename : String) : Bool :=
  ALLOWED_EXTENSIONS.any (fun ext => pyEndsWith (pyLower filename) ext)

/-- A field of a parsed JSON object: absent (`none`), explicitly `null`
(`some none`), or a JSON string (`some (some s)`). -/
abbrev JsonField := Option (Option String)

/-- A parsed JSON request body, restricted to the two fields the routes read. -/
structure RequestBody where
  filename : JsonField
  contentType : JsonField
deriving DecidableEq, Repr

/-- Python `data.get(key, default)`: the default is substituted only when the
key is absent; an explicit `null` value is returned as-is (as `none`). -/
def dictGet (field : JsonField) (default : Option String) : Option String :=
  match field with
  | none => default
  | some v => v

/-- Python truthiness of an optional string: `None` and `""` are falsy,
every other string is truthy. -/
def truthy : Option String → Bool
  | none => false
  | some s => !(s == "")

/-- The `Params` dict that `create_presigned_url` passes to the S3 client. -/
structure PresignParams where
  bucket : String
  key : String
  contentType : Option String
deriving DecidableEq, Repr

/-- A full presign request: `ClientMethod`, `Params` and `ExpiresIn` as
passed to `s3.generate_presigned_url`. -/
structure PresignRequest where
  clientMethod : String
  params : PresignParams
  expiresIn : Nat
deriving DecidableEq, Repr

/-- One backend invocation observed at the service boundary.
`dbConnect` carries whether the connection attempt succeeded and
`dbInsert` whether the INSERT (with its commit) succeeded. -/
inductive BackendCall where
  | sign (req : PresignRequest)
  | listBucket (bucket : String)
  | deleteObject (bucket : String) (key : String)
  | dbConnect (ok : Bool)
  | dbInsert (filename : String) (contentType : Option String) (ok : Bool)
  | dbClose
deriving DecidableEq, Repr

/-- One entry of the `files` array returned by the listing route. The
`url` field is optional because the source places the raw result of the
second presign call there, which is `None` when that call fails. -/
structure FileEntry where
  name : String
  url : Option String
  size : Nat
  lastModified : String
deriving DecidableEq, Repr

/-- The JSON response bodies the routes produce. -/
inductive RespBody where
  | err (msg : String)
  | uploadUrl (url : String) (filename : String)
  | files (entries : List FileEntry)
  | msg (m : String)
  | msgErr (m : String) (e : String)
deriving DecidableEq, Repr

/-- An HTTP response: status code and JSON body. -/
structure HttpResponse where
  status : Nat
  body : RespBody
deriving DecidableEq, Repr

/-- `create_presigned_url` from app.py. The S3 signing call is the oracle;
an oracle result of `none` models a `ClientError`, in which case the
function returns `None`. The `ContentType` entry is added to the params
only when `content_type` is truthy (`if content_type:`). The second
component is the trace of backend calls made (always exactly one). -/
def create_presigned_url (oracle : PresignRequest → Option String)
    (key clientMethod : String) (expires_in : Nat) (content_type : Option String) :
    Option String × List BackendCall :=
  let params : PresignParams :=
    { bucket := BUCKET_NAME, key := key
      contentType := if truthy content_type then content_type else none }
  let req : PresignRequest := ⟨clientMethod, params, expires_in⟩
  (oracle req, [BackendCall.sign req])

/-- The put-request that `generate_upload_url` sends to the signer for
filename `key` and a truthy content type `ct`. -/
def putReq (key ct : String) : PresignRequest :=
  ⟨"put_object", ⟨BUCKET_NAME, key, some ct⟩, 300⟩

/-- The get-request that `list_files` sends to the signer for `key`
with expiry `expires` (no content type is ever passed on the read path). -/
def getReq (key : String) (expires : Nat) : PresignRequest :=
  ⟨"get_object", ⟨BUCKET_NAME, key, none⟩, expires⟩

/-- The `generate_upload_url` route (POST /generate-upload-url) from app.py,
on an already-parsed body. Returns the HTTP response and the trace of
backend calls made. -/
def generate_upload_url (oracle : PresignRequest → Option String)
    (body : RequestBody) : HttpResponse × List BackendCall :=
  let filename := dictGet body.filename none
  let content_type := dictGet body.contentType (some "application/octet-stream")
  if !(truthy filename) then
    (⟨400, .err "Filename is required"⟩, [])
  else
    let fn := filename.getD ""
    if !(allowed_file fn) then
      (⟨400, .err "File type not allowed"⟩, [])
    else
      let r := create_presigned_url oracle fn "put_object" 300 content_type
      if !(truthy r.1) then
        (⟨500, .err "Failed to generate upload URL"⟩, r.2)
      else
        (⟨200, .uploadUrl (r.1.getD "") fn⟩, r.2)

/-- An object of the S3 listing (`Contents` entry): key, size and the
already-ISO-formatted last-modified timestamp. -/
structure S3Object where
  key : String
  size : Nat
  lastModified : String
deriving DecidableEq, Repr

/-- One iteration of the list comprehension in `list_files`. Per CPython
semantics the filter condition is evaluated first — a presign call with the
default 300 s expiry — and only when its result is truthy is the element
expression evaluated, which makes a second presign call with 7-day expiry
whose raw result becomes the `url` field. -/
def list_files_step (oracle : PresignRequest → Option String) (f : S3Object) :
    Option FileEntry × List BackendCall :=
  let probe := create_presigned_url oracle f.key "get_object" 300 none
  if truthy probe.1 then
    let r := create_presigned_url oracle f.key "get_object" (7*24*3600) none
    (some ⟨f.key, r.1, f.size, f.lastModified⟩, probe.2 ++ r.2)
  else
    (none, probe.2)

/-- The `list_files` route (GET /files) from app.py. `listing` is the
outcome of the single `s3.list_objects_v2` call: an error message on
`ClientError`, otherwise the `Contents` list (`[]` when the key is absent). -/
def list_files (oracle : PresignRequest → Option String)
    (listing : Except String (List S3Object)) : HttpResponse × List BackendCall :=
  match listing with
  | .error e => (⟨500, .err ("AWS Error: " ++ e)⟩, [.listBucket BUCKET_NAME])
  | .ok contents =>
    let results := contents.map (list_files_step oracle)
    let file_list := results.filterMap Prod.fst
    (⟨200, .files file_list⟩, .listBucket BUCKET_NAME :: (results.map Prod.snd).flatten)

/-- Outcome oracle for the MySQL interactions of one request:
`connAvailable` models whether `mysql.connector.connect` succeeds
(`get_db_connection` returns `None` otherwise), `insertOk` whether the
INSERT and commit succeed, and `errMsg` the `str(e)` of the exception
raised when they do not. -/
structure DbOracle where
  connAvailable : Bool
  insertOk : Bool
  errMsg : String
deriving DecidableEq, Repr

/-- The `save_file_info` route (POST /save-file-info) from app.py.
`rows` is the state of the `uploads` table, as (filename, content_type)
pairs in insertion order; a row is durably added only when the INSERT and
commit succeed. Returns the response, the new table state, and the trace.
Note the source closes the connection only on the all-success path; the
except branch returns without closing. -/
def save_file_info (db : DbOracle) (rows : List (String × Option String))
    (body : RequestBody) :
    HttpResponse × List (String × Option String) × List BackendCall :=
  let filename := dictGet body.filename none
  let content_type := dictGet body.contentType (some "application/octet-stream")
  if !(truthy filename) then
    (⟨400, .err "Filename is required"⟩, rows, [])
  else
    let fn := filename.getD ""
    if !db.connAvailable then
      (⟨200, .msg "File uploaded (MySQL not configured)"⟩, rows,
        [.dbConnect false])
    else if !db.insertOk then
      (⟨200, .msgErr "File uploaded (MySQL error)" db.errMsg⟩, rows,
        [.dbConnect true, .dbInsert fn content_type false])
    else
      (⟨200, .msg ("File \"" ++ fn ++ "\" info saved successfully")⟩,
        rows ++ [(fn, content_type)],
        [.dbConnect true, .dbInsert fn content_type true, .dbClose])

/-- The `delete_file` route (DELETE /delete-file) from app.py.
`outcome` is the result of the single `s3.delete_object` call (an error
message on `ClientError`). `rows` is threaded through unchanged so that
the frame property on the relational store can be stated. -/
def delete_file (outcome : Except String Unit) (body : RequestBody)
    (rows : List (String × Option String)) :
    HttpResponse × List (String × Option String) × List BackendCall :=
  let filename := dictGet body.filename none
  if !(truthy filename) then
    (⟨400, .err "Filename is required"⟩, rows, [])
  else
    let fn := filename.getD ""
    match outcome with
    | .ok _ =>
        (⟨200, .msg ("🗑️ " ++ fn ++ " deleted successfully")⟩, rows,
          [.deleteObject BUCKET_NAME fn])
    | .error e =>
        (⟨500, .err ("AWS Error: " ++ e)⟩, rows,
          [.deleteObject BUCKET_NAME fn])

/-- Classifier: is this backend call a relational-store (recorder) call? -/
def isDbCall : BackendCall → Bool
  | .dbConnect _ => true
  | .dbInsert _ _ _ => true
  | .dbClose => true
  | _ => false

/-- Classifier: is this backend call a URL-signing call? -/
def isSign : BackendCall → Bool
  | .sign _ => true
  | _ => false

/-- Classifier: is this backend call an object delete? -/
def isDeleteCall : BackendCall → Bool
  | .deleteObject _ _ => true
  | _ => false

/-- Classifier: is this backend call a bucket listing? -/
def isListCall : BackendCall → Bool
  | .listBucket _ => true
  | _ => false

/-- Classifier: is this backend call a connection attempt? -/
def isDbConnect : BackendCall → Bool
  | .dbConnect _ => true
  | _ => false

/-- Classifier: is this backend call an INSERT attempt? -/
def isDbInsert : BackendCall → Bool
  | .dbInsert _ _ _ => true
  | _ => false

/-- Does the validation of `generate_upload_url` accept this body: the
filename field is truthy and carries an allowed extension. -/
def acceptsBody (body : RequestBody) : Bool :=
  truthy (dictGet body.filename none)
    && allowed_file ((dictGet body.filename none).getD "")

/-- The listing contract restated from the amended reading of the spec:
one entry per key whose default-expiry (300 s) probe issuance succeeds,
whose url field is the raw outcome of the separate 7-day issuance (null
when that second call fails); probe-failing keys are dropped. -/
def listFilesSpec (oracle : PresignRequest → Option String)
    (contents : List S3Object) : List FileEntry :=
  contents.filterMap fun f =>
    if truthy (oracle (getReq f.key 300))
    then some ⟨f.key, oracle (getReq f.key (7*24*3600)), f.size, f.lastModified⟩
    else none

/-- C3: for every filename, `allowed_file` returns true exactly when the
lowercased filename ends with one of the eight allow-listed extensions; in
particular it returns false on the empty string, on a filename with no
extension, and on a disallowed extension. (The embedding is a pure
function, so the no-side-effects part holds by construction.) -/
theorem allowed_file_matches_allow_list :
    (∀ f : String, allowed_file f = true ↔
      ∃ ext ∈ ALLOWED_EXTENSIONS, ext.data <:+ (pyLower f).data)
    ∧ allowed_file "" = false
    ∧ allowed_file "archive" = false
    ∧ allowed_file "x.txt" = false := by
  refine ⟨fun f => ?_, by decide, by decide, by decide⟩
  simp [allowed_file, pyEndsWith, List.any_eq_true]

/-- C4: `generate_upload_url` answers 400 with a validation error, making no
backend call at all (empty trace), whenever the filename field is missing,
null or empty, and likewise whenever `allowed_file` rejects the filename. -/
theorem generate_upload_url_validates_first
    (oracle : PresignRequest → Option String) (body : RequestBody) :
    (truthy (dictGet body.filename none) = false →
      generate_upload_url oracle body = (⟨400, .err "Filename is required"⟩, []))
    ∧ (∀ f : String, dictGet body.filename none = some f → f ≠ "" →
        allowed_file f = false →
        generate_upload_url oracle body = (⟨400, .err "File type not allowed"⟩, [])) := by
  constructor
  · intro h
    simp [generate_upload_url, h]
  · intro f hf hne hall
    simp [generate_upload_url, hf, truthy, hne, hall]

/-- Witness for C4 at the concrete inputs named by the spec: the empty
filename and "x.txt" both yield 400 with an empty backend trace. -/
theorem generate_upload_url_validates_first_witness :
    generate_upload_url (fun _ => some "https://u") ⟨some (some ""), none⟩
      = (⟨400, .err "Filename is required"⟩, [])
    ∧ generate_upload_url (fun _ => some "https://u") ⟨some (some "x.txt"), none⟩
      = (⟨400, .err "File type not allowed"⟩, []) :=
  ⟨(generate_upload_url_validates_first _ _).1 (by decide),
   (generate_upload_url_validates_first _ _).2 "x.txt" rfl (by decide) (by decide)⟩

/-- C5: on an accepted filename with a supplied (truthy) content type, when
the signer succeeds `generate_upload_url` returns 200 with the url and the
filename, and the single signing request issued is a put on exactly that
key, constrained to the supplied content type, with expiry 300 s (≤ 300 s). -/
theorem generate_upload_url_success_scoped
    (oracle : PresignRequest → Option String) (f ct u : String)
    (hne : f ≠ "") (hall : allowed_file f = true) (hct : ct ≠ "")
    (hor : oracle (putReq f ct) = some u) (hu : u ≠ "") :
    generate_upload_url oracle ⟨some (some f), some (some ct)⟩
      = (⟨200, .uploadUrl u f⟩, [.sign (putReq f ct)])
    ∧ (putReq f ct).clientMethod = "put_object"
    ∧ (putReq f ct).params.key = f
    ∧ (putReq f ct).params.contentType = some ct
    ∧ (putReq f ct).expiresIn ≤ 300 := by
  refine ⟨?_, rfl, rfl, rfl, le_refl 300⟩
  have hreq : create_presigned_url oracle f "put_object" 300 (some ct)
      = (oracle (putReq f ct), [.sign (putReq f ct)]) := by
    simp [create_presigned_url, truthy, hct, putReq]
  simp [generate_upload_url, dictGet, truthy, hne, hct, hreq, hor, hu, hall]

/-- Witness for C5 at the test vector of the spec, "photo.JPG" with
content type "image/jpeg". -/
theorem generate_upload_url_success_scoped_witness :
    generate_upload_url (fun _ => some "https://signed.example/photo")
        ⟨some (some "photo.JPG"), some (some "image/jpeg")⟩
      = (⟨200, .uploadUrl "https://signed.example/photo" "photo.JPG"⟩,
          [.sign (putReq "photo.JPG" "image/jpeg")])
    ∧ (putReq "photo.JPG" "image/jpeg").clientMethod = "put_object"
    ∧ (putReq "photo.JPG" "image/jpeg").params.key = "photo.JPG"
    ∧ (putReq "photo.JPG" "image/jpeg").params.contentType = some "image/jpeg"
    ∧ (putReq "photo.JPG" "image/jpeg").expiresIn ≤ 300 :=
  generate_upload_url_success_scoped _ "photo.JPG" "image/jpeg"
    "https://signed.example/photo" (by decide) (by decide) (by decide) rfl (by decide)


/-- Helper: closed form of one listing iteration (the probe call with
default 300 s expiry decides inclusion; kept keys get a second 7-day call). -/
theorem list_files_step_eq (oracle : PresignRequest → Option String) (f : S3Object) :
    list_files_step oracle f
      = (if truthy (oracle (getReq f.key 300))
          then ((some ⟨f.key, oracle (getReq f.key (7*24*3600)), f.size, f.lastModified⟩ :
              Option FileEntry),
            [BackendCall.sign (getReq f.key 300), BackendCall.sign (getReq f.key (7*24*3600))])
          else ((none : Option FileEntry), [BackendCall.sign (getReq f.key 300)])) := rfl

/-- Helper: the entries computed by the listing comprehension coincide
with `listFilesSpec`. -/
theorem list_files_entries (oracle : PresignRequest → Option String)
    (contents : List S3Object) :
    (contents.map (list_files_step oracle)).filterMap Prod.fst
      = listFilesSpec oracle contents := by
  induction contents with
  | nil => rfl
  | cons f rest ih =>
    simp only [List.map_cons, List.filterMap_cons, listFilesSpec, list_files_step_eq]
    cases h : truthy (oracle (getReq f.key 300)) <;>
      simp_all [listFilesSpec]

/-- Helper: in the flattened per-object trace of the listing, a predicate
that is false on signing events counts zero. -/
theorem list_files_flat_countP_eq_zero (oracle : PresignRequest → Option String)
    (contents : List S3Object) (p : BackendCall → Bool)
    (hp : ∀ req, p (.sign req) = false) :
    List.countP p ((contents.map (list_files_step oracle)).map Prod.snd).flatten = 0 := by
  induction contents with
  | nil => rfl
  | cons f rest ih =>
    simp only [List.map_cons, List.flatten_cons, List.countP_append, ih,
      list_files_step_eq]
    cases h : truthy (oracle (getReq f.key 300)) <;>
      simp [h, List.countP_cons, hp]

/-- Helper: the number of signing events in the flattened per-object trace
of the listing is one per listed key plus one more per key whose probe
succeeded. -/
theorem list_files_flat_sign_count (oracle : PresignRequest → Option String)
    (contents : List S3Object) :
    List.countP isSign ((contents.map (list_files_step oracle)).map Prod.snd).flatten
      = contents.length
        + List.countP (fun f => truthy (oracle (getReq f.key 300))) contents := by
  induction contents with
  | nil => rfl
  | cons f rest ih =>
    simp only [List.map_cons, List.flatten_cons, List.countP_append, ih,
      list_files_step_eq, List.length_cons, List.countP_cons]
    cases h : truthy (oracle (getReq f.key 300)) <;>
      simp [h, List.countP_cons, isSign] <;> omega

/-- Helper: `generate_upload_url` never makes a relational-store call. -/
theorem generate_upload_url_countP_no_db (oracle : PresignRequest → Option String)
    (body : RequestBody) :
    List.countP isDbCall (generate_upload_url oracle body).2 = 0 := by
  simp only [generate_upload_url, create_presigned_url]
  split
  · rfl
  · split
    · rfl
    · simp [apply_ite Prod.snd, List.countP_cons, isDbCall]

/-- C7: `save_file_info` answers 400 exactly when the filename field is
missing, null or empty; for every non-empty filename the response status is
200 in every store outcome (connection refused, insert error, success), and
exactly one row (filename, contentType) is added when connection and insert
succeed — with the content type defaulting to application/octet-stream when
the field is omitted — and no row otherwise. -/
theorem save_file_info_absorbs_store_failures
    (db : DbOracle) (rows : List (String × Option String)) (body : RequestBody) :
    ((save_file_info db rows body).1.status = 400 ↔
      truthy (dictGet body.filename none) = false)
    ∧ (∀ f : String, dictGet body.filename none = some f → f ≠ "" →
        (save_file_info db rows body).1.status = 200
        ∧ (save_file_info db rows body).2.1
            = rows ++ (if db.connAvailable && db.insertOk
                then [(f, dictGet body.contentType (some "application/octet-stream"))]
                else [])) := by
  constructor
  · cases h : truthy (dictGet body.filename none) <;>
      cases hca : db.connAvailable <;> cases hio : db.insertOk <;>
        simp [save_file_info, h, hca, hio]
  · intro f hf hne
    cases hca : db.connAvailable <;> cases hio : db.insertOk <;>
      simp [save_file_info, hf, truthy, hne, hca, hio]

/-- Witness for C7: a concrete save of "a.png" with the content type field
omitted against a fully available store: status 200 and exactly the
defaulted row is appended. -/
theorem save_file_info_absorbs_store_failures_witness :
    (save_file_info ⟨true, true, "e"⟩ [] ⟨some (some "a.png"), none⟩).1.status = 200
    ∧ (save_file_info ⟨true, true, "e"⟩ [] ⟨some (some "a.png"), none⟩).2.1
        = [("a.png", some "application/octet-stream")] := by
  have h := (save_file_info_absorbs_store_failures ⟨true, true, "e"⟩ []
      ⟨some (some "a.png"), none⟩).2 "a.png" rfl (by decide)
  exact ⟨h.1, by simpa using h.2⟩

/-- C2 counterexample: the invocation with filename "a.png" against a store
that accepts the connection but fails the INSERT opens one connection (one
successful dbConnect event) yet emits no dbClose event: the connection is
left open, so release is not guaranteed on insert failure. -/
theorem save_file_info_leaks_connection_counterexample :
    List.countP (fun c => c == BackendCall.dbConnect true)
        (save_file_info ⟨true, false, "Duplicate entry"⟩ []
          ⟨some (some "a.png"), none⟩).2.2 = 1
    ∧ List.countP (fun c => c == BackendCall.dbClose)
        (save_file_info ⟨true, false, "Duplicate entry"⟩ []
          ⟨some (some "a.png"), none⟩).2.2 = 0 :=
  ⟨by decide, by decide⟩

/-- C2 (amended): a connection-close event occurs exactly when the
connection was opened and the INSERT succeeded; when the INSERT raises, the
handler returns from the except branch without closing, leaving the
connection open. Connection-open events occur exactly when the filename is
non-empty and the store accepts the connection. -/
theorem save_file_info_closes_only_on_success
    (db : DbOracle) (rows : List (String × Option String)) (body : RequestBody) :
    List.countP (fun c => c == BackendCall.dbClose) (save_file_info db rows body).2.2
      = (if truthy (dictGet body.filename none) && db.connAvailable && db.insertOk
          then 1 else 0)
    ∧ List.countP (fun c => c == BackendCall.dbConnect true)
        (save_file_info db rows body).2.2
      = (if truthy (dictGet body.filename none) && db.connAvailable then 1 else 0) := by
  cases h : truthy (dictGet body.filename none) <;>
    cases hca : db.connAvailable <;> cases hio : db.insertOk <;>
      simp [save_file_info, h, hca, hio, List.countP_cons]

/-- C1 counterexample: a fully successful `generate_upload_url` run on the
accepted filename "photo.JPG" with content type "image/jpeg" returns 200,
yet its complete backend trace is the single signing call: it contains no
relational-store call at all, so no best-effort recorder call with that
filename and content type is made. -/
theorem generate_upload_url_no_recorder_counterexample :
    (generate_upload_url (fun _ => some "https://signed.example/c1")
        ⟨some (some "photo.JPG"), some (some "image/jpeg")⟩).1.status = 200
    ∧ (generate_upload_url (fun _ => some "https://signed.example/c1")
        ⟨some (some "photo.JPG"), some (some "image/jpeg")⟩).2
      = [.sign (putReq "photo.JPG" "image/jpeg")]
    ∧ List.countP isDbCall
        (generate_upload_url (fun _ => some "https://signed.example/c1")
          ⟨some (some "photo.JPG"), some (some "image/jpeg")⟩).2 = 0 :=
  ⟨by decide, by decide, by decide⟩

/-- C1 (amended): `generate_upload_url` never invokes the Metadata Recorder
— in every execution its backend trace contains no relational-store call —
and therefore the metadata store cannot influence the response: whenever
the filename is accepted and URL issuance succeeds, the result is 200 with
the issued URL, whatever the state of the store. -/
theorem generate_upload_url_recorder_independent
    (oracle : PresignRequest → Option String) (body : RequestBody)
    (f u : String) (hf : dictGet body.filename none = some f) (hne : f ≠ "")
    (hall : allowed_file f = true)
    (hor : (create_presigned_url oracle f "put_object" 300
        (dictGet body.contentType (some "application/octet-stream"))).1 = some u)
    (hu : u ≠ "") :
    (generate_upload_url oracle body).1 = ⟨200, .uploadUrl u f⟩
    ∧ (∀ (o : PresignRequest → Option String) (b : RequestBody),
        List.countP isDbCall (generate_upload_url o b).2 = 0) := by
  refine ⟨?_, fun o b => generate_upload_url_countP_no_db o b⟩
  have ht : truthy (some f) = true := by simp [truthy, hne]
  have hu2 : truthy (some u) = true := by simp [truthy, hu]
  simp only [create_presigned_url] at hor
  simp [generate_upload_url, create_presigned_url, hf, ht, hall, hor, hu2]

/-- Witness for C1 (amended): concrete accepted upload of "a.png" with a
succeeding signer: 200 with the issued URL and a recorder-free trace. -/
theorem generate_upload_url_recorder_independent_witness :
    (generate_upload_url (fun _ => some "https://w") ⟨some (some "a.png"), none⟩).1
      = ⟨200, .uploadUrl "https://w" "a.png"⟩
    ∧ List.countP isDbCall
        (generate_upload_url (fun _ => some "https://w")
          ⟨some (some "a.png"), none⟩).2 = 0 := by
  have h := generate_upload_url_recorder_independent (fun _ => some "https://w")
      ⟨some (some "a.png"), none⟩ "a.png" "https://w" rfl (by decide) (by decide)
      rfl (by decide)
  exact ⟨h.1, h.2 _ _⟩

/-- C6 counterexample: with a bucket holding the single key "a.png" and a
signer for which the default-expiry (300 s) call succeeds but the 7-day
call fails, `list_files` does not drop the key: it returns one entry for
"a.png" whose url field is null rather than a 7-day read URL. -/
theorem list_files_keeps_key_with_null_url_counterexample :
    (list_files (fun r => if r.expiresIn == 300 then some "https://probe" else none)
        (.ok [⟨"a.png", 5, "2024-01-01T00:00:00"⟩])).1
      = ⟨200, .files [⟨"a.png", none, 5, "2024-01-01T00:00:00"⟩]⟩ := by
  decide

/-- C6 (amended): the listing keeps, in backend order, exactly the keys
whose default-expiry (300 s) probe issuance succeeds — keys whose probe
fails are silently dropped rather than failing the listing — and each kept
entry carries name, size, lastModified and, as its url, the raw result of
a separate 7-day issuance, which is null when that second call fails; a
bucket with zero objects yields an empty files array with status 200. -/
theorem list_files_best_available
    (oracle : PresignRequest → Option String) (contents : List S3Object) :
    (list_files oracle (.ok ([] : List S3Object))).1 = ⟨200, .files []⟩
    ∧ (list_files oracle (.ok contents)).1
        = ⟨200, .files (listFilesSpec oracle contents)⟩ := by
  refine ⟨rfl, ?_⟩
  show (⟨200, .files ((contents.map (list_files_step oracle)).filterMap Prod.fst)⟩ :
      HttpResponse) = _
  rw [list_files_entries]

/-- Helper: signing attempts of `generate_upload_url`, in closed form:
one when validation accepts the body, zero otherwise. -/
theorem generate_upload_url_sign_count (oracle : PresignRequest → Option String)
    (body : RequestBody) :
    List.countP isSign (generate_upload_url oracle body).2
      = (if acceptsBody body then 1 else 0) := by
  rcases Bool.eq_false_or_eq_true (truthy (dictGet body.filename none)) with h1 | h1
  · rcases Bool.eq_false_or_eq_true
        (allowed_file ((dictGet body.filename none).getD "")) with h2 | h2
    · simp [generate_upload_url, create_presigned_url, acceptsBody, h1, h2,
        apply_ite Prod.snd, List.countP_cons, isSign]
    · simp [generate_upload_url, acceptsBody, h1, h2]
  · simp [generate_upload_url, acceptsBody, h1]

/-- Helper: `generate_upload_url` makes no backend call other than signing. -/
theorem generate_upload_url_only_sign (oracle : PresignRequest → Option String)
    (body : RequestBody) :
    List.countP (fun c => !(isSign c)) (generate_upload_url oracle body).2 = 0 := by
  simp only [generate_upload_url, create_presigned_url]
  split
  · rfl
  · split
    · rfl
    · simp [apply_ite Prod.snd, List.countP_cons, isSign]

/-- Helper: backend-call counts of `delete_file`: one object delete for a
truthy filename, nothing else, in either backend outcome. -/
theorem delete_file_counts (outcome : Except String Unit) (body : RequestBody)
    (rows : List (String × Option String)) :
    List.countP isDeleteCall (delete_file outcome body rows).2.2
      = (if truthy (dictGet body.filename none) then 1 else 0)
    ∧ List.countP (fun c => !(isDeleteCall c)) (delete_file outcome body rows).2.2
      = 0 := by
  cases h : truthy (dictGet body.filename none) <;> cases outcome <;>
    simp [delete_file, h, List.countP_cons, isDeleteCall]

/-- Helper: backend-call counts of `save_file_info`: one connection attempt
for a truthy filename, one INSERT attempt when the connection succeeded,
and no S3 call of any kind. -/
theorem save_file_info_counts (db : DbOracle)
    (rows : List (String × Option String)) (body : RequestBody) :
    List.countP isDbConnect (save_file_info db rows body).2.2
      = (if truthy (dictGet body.filename none) then 1 else 0)
    ∧ List.countP isDbInsert (save_file_info db rows body).2.2
      = (if truthy (dictGet body.filename none) && db.connAvailable then 1 else 0)
    ∧ List.countP (fun c => isSign c || isListCall c || isDeleteCall c)
        (save_file_info db rows body).2.2 = 0 := by
  cases h : truthy (dictGet body.filename none) <;> cases hca : db.connAvailable <;>
    cases hio : db.insertOk <;>
      simp [save_file_info, h, hca, hio, List.countP_cons, isDbConnect, isDbInsert,
        isSign, isListCall, isDeleteCall]

/-- C8 counterexample: a single request to the listing route, over a bucket
holding the one key "a.png" and a signer that always succeeds, attempts URL
signing twice (the 300 s probe and the 7-day issuance) — not exactly once. -/
theorem list_files_signs_twice_counterexample :
    List.countP isSign
      (list_files (fun _ => some "https://u") (.ok [⟨"a.png", 5, "t"⟩])).2 = 2 := by
  decide

/-- C8 (amended): no backend call is ever re-attempted; the exact number of
attempts per request is: `generate_upload_url` signs once when validation
accepts and zero times otherwise, making no other backend call;
`delete_file` deletes once for a truthy filename and makes no other call;
`save_file_info` attempts one connection for a truthy filename and one
INSERT when the connection succeeds, making no S3 call; `list_files` lists
the bucket exactly once and attempts signing once per listed key plus one
more time for each key whose probe succeeds — twice per kept key, against
the literal once-per-request reading. -/
theorem backend_calls_attempted_without_retry
    (oracle : PresignRequest → Option String) (db : DbOracle)
    (outcome : Except String Unit) (e : String) (contents : List S3Object)
    (body : RequestBody) (rows : List (String × Option String)) :
    List.countP isSign (generate_upload_url oracle body).2
      = (if acceptsBody body then 1 else 0)
    ∧ List.countP (fun c => !(isSign c)) (generate_upload_url oracle body).2 = 0
    ∧ List.countP isDeleteCall (delete_file outcome body rows).2.2
      = (if truthy (dictGet body.filename none) then 1 else 0)
    ∧ List.countP (fun c => !(isDeleteCall c)) (delete_file outcome body rows).2.2 = 0
    ∧ List.countP isDbConnect (save_file_info db rows body).2.2
      = (if truthy (dictGet body.filename none) then 1 else 0)
    ∧ List.countP isDbInsert (save_file_info db rows body).2.2
      = (if truthy (dictGet body.filename none) && db.connAvailable then 1 else 0)
    ∧ List.countP (fun c => isSign c || isListCall c || isDeleteCall c)
        (save_file_info db rows body).2.2 = 0
    ∧ List.countP isListCall (list_files oracle (.ok contents)).2 = 1
    ∧ List.countP isListCall (list_files oracle (.error e)).2 = 1
    ∧ List.countP isSign (list_files oracle (.error e)).2 = 0
    ∧ List.countP isSign (list_files oracle (.ok contents)).2
      = contents.length
        + List.countP (fun f => truthy (oracle (getReq f.key 300))) contents := by
  refine ⟨generate_upload_url_sign_count oracle body,
    generate_upload_url_only_sign oracle body,
    (delete_file_counts outcome body rows).1,
    (delete_file_counts outcome body rows).2,
    (save_file_info_counts db rows body).1,
    (save_file_info_counts db rows body).2.1,
    (save_file_info_counts db rows body).2.2, ?_, ?_, ?_, ?_⟩
  · show List.countP isListCall
        (.listBucket BUCKET_NAME ::
          ((contents.map (list_files_step oracle)).map Prod.snd).flatten) = 1
    rw [List.countP_cons,
      list_files_flat_countP_eq_zero oracle contents isListCall (fun req => rfl)]
    simp [isListCall]
  · simp [list_files, List.countP_cons, isListCall]
  · simp [list_files, List.countP_cons, isSign]
  · show List.countP isSign
        (.listBucket BUCKET_NAME ::
          ((contents.map (list_files_step oracle)).map Prod.snd).flatten)
      = contents.length
        + List.countP (fun f => truthy (oracle (getReq f.key 300))) contents
    rw [List.countP_cons, list_files_flat_sign_count]
    simp [isSign]

/-- C9: `delete_file` leaves the relational store unchanged and performs no
backend call other than the object delete; and no operation of the service
ever removes a row: `save_file_info` only ever appends to the table, and
neither `generate_upload_url` nor `list_files` makes any relational-store
call at all. -/
theorem delete_file_frame
    (outcome : Except String Unit) (body : RequestBody)
    (rows : List (String × Option String)) (db : DbOracle)
    (oracle : PresignRequest → Option String)
    (listing : Except String (List S3Object)) :
    (delete_file outcome body rows).2.1 = rows
    ∧ List.countP (fun c => !(isDeleteCall c)) (delete_file outcome body rows).2.2 = 0
    ∧ (∃ l, (save_file_info db rows body).2.1 = rows ++ l)
    ∧ List.countP isDbCall (generate_upload_url oracle body).2 = 0
    ∧ List.countP isDbCall (list_files oracle listing).2 = 0 := by
  refine ⟨?_, ?_, ?_, generate_upload_url_countP_no_db oracle body, ?_⟩
  · cases h : truthy (dictGet body.filename none) <;> cases outcome <;>
      simp [delete_file, h]
  · cases h : truthy (dictGet body.filename none) <;> cases outcome <;>
      simp [delete_file, h, List.countP_cons, isDeleteCall]
  · cases h : truthy (dictGet body.filename none)
    · exact ⟨[], by simp [save_file_info, h]⟩
    · cases hca : db.connAvailable
      · exact ⟨[], by simp [save_file_info, h, hca]⟩
      · cases hio : db.insertOk
        · exact ⟨[], by simp [save_file_info, h, hca, hio]⟩
        · exact ⟨[((dictGet body.filename none).getD "",
              dictGet body.contentType (some "application/octet-stream"))],
            by simp [save_file_info, h, hca, hio]⟩
  · cases listing with
    | error e => simp [list_files, List.countP_cons, isDbCall]
    | ok contents =>
      show List.countP isDbCall
          (.listBucket BUCKET_NAME ::
            ((contents.map (list_files_step oracle)).map Prod.snd).flatten) = 0
      rw [List.countP_cons,
        list_files_flat_countP_eq_zero oracle contents isDbCall (fun req => rfl)]
      simp [isDbCall]

/-- Helper: the backend trace of `generate_upload_url` on an accepted
filename, in every signer outcome: one put-signing request whose
ContentType entry is present exactly when the content type computed by
`data.get` is truthy. -/
theorem generate_upload_url_trace (oracle : PresignRequest → Option String)
    (body : RequestBody) (f : String) (hf : dictGet body.filename none = some f)
    (hne : f ≠ "") (hall : allowed_file f = true) :
    (generate_upload_url oracle body).2
      = [.sign ⟨"put_object",
          ⟨BUCKET_NAME, f,
            if truthy (dictGet body.contentType (some "application/octet-stream"))
            then dictGet body.contentType (some "application/octet-stream")
            else none⟩, 300⟩] := by
  have ht : truthy (some f) = true := by simp [truthy, hne]
  simp [generate_upload_url, create_presigned_url, hf, ht, hall, apply_ite Prod.snd]

/-- C10: the application/octet-stream default applies only when the
contentType key is absent from the body. With an explicitly null (or
empty-string) contentType, an accepted write request is signed with no
ContentType constraint at all, while an absent key yields the defaulted
constraint; and `save_file_info` with an explicitly null contentType
records a null content type rather than the default, while an absent key
records the default. -/
theorem content_type_default_only_when_absent
    (oracle : PresignRequest → Option String) (db : DbOracle)
    (rows : List (String × Option String)) (f : String)
    (hne : f ≠ "") (hall : allowed_file f = true) :
    (generate_upload_url oracle ⟨some (some f), some none⟩).2
      = [.sign ⟨"put_object", ⟨BUCKET_NAME, f, none⟩, 300⟩]
    ∧ (generate_upload_url oracle ⟨some (some f), some (some "")⟩).2
      = [.sign ⟨"put_object", ⟨BUCKET_NAME, f, none⟩, 300⟩]
    ∧ (generate_upload_url oracle ⟨some (some f), none⟩).2
      = [.sign ⟨"put_object",
          ⟨BUCKET_NAME, f, some "application/octet-stream"⟩, 300⟩]
    ∧ (db.connAvailable = true → db.insertOk = true →
        (save_file_info db rows ⟨some (some f), some none⟩).2.1 = rows ++ [(f, none)]
        ∧ (save_file_info db rows ⟨some (some f), none⟩).2.1
            = rows ++ [(f, some "application/octet-stream")]) := by
  have ht : truthy (some f) = true := by simp [truthy, hne]
  refine ⟨?_, ?_, ?_, ?_⟩
  · rw [generate_upload_url_trace oracle ⟨some (some f), some none⟩ f rfl hne hall]
    simp [dictGet, truthy]
  · rw [generate_upload_url_trace oracle ⟨some (some f), some (some "")⟩ f rfl hne hall]
    simp [dictGet, truthy]
  · rw [generate_upload_url_trace oracle ⟨some (some f), none⟩ f rfl hne hall]
    simp [dictGet, truthy]
  · intro hca hio
    constructor <;> simp [save_file_info, dictGet, ht, hca, hio]

/-- Witness for C10 at the concrete filename "a.png": an explicitly null
contentType yields an unconstrained signing request and a null recorded
content type, while an absent key yields the defaulted constraint and the
defaulted row. -/
theorem content_type_default_only_when_absent_witness :
    (generate_upload_url (fun _ => some "https://u") ⟨some (some "a.png"), some none⟩).2
      = [.sign ⟨"put_object", ⟨BUCKET_NAME, "a.png", none⟩, 300⟩]
    ∧ (generate_upload_url (fun _ => some "https://u") ⟨some (some "a.png"), none⟩).2
      = [.sign ⟨"put_object",
          ⟨BUCKET_NAME, "a.png", some "application/octet-stream"⟩, 300⟩]
    ∧ (save_file_info ⟨true, true, "e"⟩ [] ⟨some (some "a.png"), some none⟩).2.1
      = [("a.png", none)]
    ∧ (save_file_info ⟨true, true, "e"⟩ [] ⟨some (some "a.png"), none⟩).2.1
      = [("a.png", some "application/octet-stream")] := by
  have h := content_type_default_only_when_absent (fun _ => some "https://u")
      ⟨true, true, "e"⟩ [] "a.png" (by decide) (by decide)
  refine ⟨h.1, h.2.2.1, ?_, ?_⟩
  · have h2 := (h.2.2.2 rfl rfl).1
    simpa using h2
  · have h2 := (h.2.2.2 rfl rfl).2
    simpa using h2
